import Mathlib

/-!
Shallow embedding of the settings-view package manager
(`src/lib/package-manager.js`) and registry client (`src/lib/atom-io-client.js`),
with theorems settling the spec's claims about lifecycle events, caching,
request deduplication and the avatar file cache.
-/

namespace SettingsView

/-- A package descriptor as handed to the lifecycle operations.  `theme`
mirrors `pack.theme`; `metadataTheme` mirrors the truthiness of
`pack.metadata && pack.metadata.theme`, the other disjunct consulted by
`emitPackageEvent`. -/
structure Pack where
  name : String
  version : Option String := none
  theme : Bool := false
  metadataTheme : Bool := false
  deriving DecidableEq

/-- Event-name computation of `emitPackageEvent` in `package-manager.js`:
the action suffix is prefixed with `theme-` when
`pack.theme || (pack.metadata && pack.metadata.theme)` holds, else with
`package-`. -/
def emitPackageEvent (pack : Pack) (action : String) : String :=
  if pack.theme || pack.metadataTheme then "theme-" ++ action else "package-" ++ action

/-- Completion of one `runCommand` subprocess: either the `exit` callback
fires with the exit code and the buffered stdout/stderr, or the process fails
to spawn and the `onWillThrowError` handler installed by
`handleProcessErrors` fires instead. -/
inductive Outcome where
  | exited (code : Int) (stdout stderr : String)
  | spawnFailure (message : String)
  deriving DecidableEq

/-- One observable side effect of a lifecycle operation, in program order:
an emission on the `Emitter` (recording the pack it carries, the action
suffix, and whether an error payload is attached), a `clearOutdatedCache`
call, or a call into the host `atom.packages` / `atom.config` API. -/
inductive Step where
  | emit (pack : Pack) (action : String) (hasError : Bool)
  | clearCacheStep
  | hostCall (api : String) (arg : String)
  deriving DecidableEq

/-- Source `unload(name)`: when the package is loaded, deactivate it if it is
active and then unload it; otherwise do nothing. -/
def unload (loaded active : Bool) (name : String) : List Step :=
  if loaded then
    (if active then [Step.hostCall "deactivatePackage" name] else []) ++
      [Step.hostCall "unloadPackage" name]
  else []

/-- Source `install(pack, callback)` as the ordered list of observable steps
it performs for a given subprocess outcome.

* `loadedBefore` / `activeBefore` / `disabled` mirror
  `atom.packages.isPackageLoaded(name)`, `atom.packages.isPackageActive(name)`
  and `atom.packages.isPackageDisabled(name)` read before the subprocess runs.
* `parsed` is the result of the guarded metadata merge on the exit-0 path
  (`try ... JSON.parse(stdout)[0] ... catch (err) \x7b\x7d`): `none` when the
  `try` block throws (old apm output without `--json` support), otherwise the
  merged descriptor; `name` is rebound to the merged descriptor's name there. -/
def install (pack : Pack) (loadedBefore activeBefore disabled : Bool)
    (parsed : Option Pack) (outcome : Outcome) : List Step :=
  let name := pack.name
  let activateOnSuccess := !pack.theme && !disabled
  let activateOnFailure := activeBefore
  unload loadedBefore activeBefore name ++
    [Step.emit pack "installing" false] ++
    match outcome with
    | Outcome.exited code _ _ =>
      if code = 0 then
        let newPack := parsed.getD pack
        [Step.clearCacheStep] ++
          (if activateOnSuccess then [Step.hostCall "activatePackage" newPack.name]
           else [Step.hostCall "loadPackage" newPack.name]) ++
          [Step.emit newPack "installed" false]
      else
        (if activateOnFailure then [Step.hostCall "activatePackage" name] else []) ++
          [Step.emit pack "install-failed" true]
    | Outcome.spawnFailure _ => [Step.emit pack "install-failed" true]

/-- Source `uninstall(pack, callback)`.  `activeBefore` mirrors
`atom.packages.isPackageActive(name)` at entry; `loadedAfter` / `activeAfter`
feed the `unload(name)` call made on the success path after the subprocess
has run. -/
def uninstall (pack : Pack) (activeBefore loadedAfter activeAfter : Bool)
    (outcome : Outcome) : List Step :=
  let name := pack.name
  (if activeBefore then [Step.hostCall "deactivatePackage" name] else []) ++
    [Step.emit pack "uninstalling" false] ++
    match outcome with
    | Outcome.exited code _ _ =>
      if code = 0 then
        [Step.clearCacheStep] ++ unload loadedAfter activeAfter name ++
          [Step.hostCall "removeAtKeyPath" name, Step.emit pack "uninstalled" false]
      else [Step.emit pack "uninstall-failed" true]
    | Outcome.spawnFailure _ => [Step.emit pack "uninstall-failed" true]

/-- Source `update(pack, newVersion, callback)`: emit `updating`, run the
install command for the new version (or the git source), then on exit 0 clear
the outdated cache and emit `updated`, otherwise emit `update-failed`. -/
def update (pack : Pack) (outcome : Outcome) : List Step :=
  [Step.emit pack "updating" false] ++
    match outcome with
    | Outcome.exited code _ _ =>
      if code = 0 then [Step.clearCacheStep, Step.emit pack "updated" false]
      else [Step.emit pack "update-failed" true]
    | Outcome.spawnFailure _ => [Step.emit pack "update-failed" true]

/-- Action suffixes of the events a step list emits, in order. -/
def eventActions : List Step → List String
  | [] => []
  | Step.emit _ action _ :: rest => action :: eventActions rest
  | Step.clearCacheStep :: rest => eventActions rest
  | Step.hostCall _ _ :: rest => eventActions rest

/-- Terminal action suffixes of the lifecycle operations. -/
def isTerminalAction (action : String) : Bool :=
  action == "installed" || action == "install-failed" || action == "uninstalled" ||
    action == "uninstall-failed" || action == "updated" || action == "update-failed"

/-- Auxiliary scan: walking the step list with `seen` recording whether a
`clearOutdatedCache` step has occurred, report at the first terminal event
whether the cache had been invalidated by then; `false` when no terminal
event occurs. -/
def clearedBeforeTerminalAux (seen : Bool) : List Step → Bool
  | [] => false
  | Step.clearCacheStep :: rest => clearedBeforeTerminalAux true rest
  | Step.emit _ action _ :: rest =>
    if isTerminalAction action then seen else clearedBeforeTerminalAux seen rest
  | Step.hostCall _ _ :: rest => clearedBeforeTerminalAux seen rest

/-- Whether a `clearOutdatedCache` step occurs strictly before the first
terminal event of the step list. -/
def clearedBeforeTerminal (steps : List Step) : Bool :=
  clearedBeforeTerminalAux false steps

/-- Single-slot outdated cache `this.apmCache.loadOutdated`, a
`\x7bvalue, expiry\x7d` record.  `value` is `none` for JavaScript `null` and
`some names` for a (possibly empty, still truthy) array of package names. -/
structure CacheSlot where
  value : Option (List String)
  expiry : Nat
  deriving DecidableEq

/-- Source `setLoadOutdated(value, expiry)`. -/
def setLoadOutdated (value : Option (List String)) (expiry : Nat) : CacheSlot :=
  { value := value, expiry := expiry }

/-- Source `clearOutdatedCache()`: `setLoadOutdated(null, 0)`. -/
def clearOutdatedCache : CacheSlot := setLoadOutdated none 0

/-- Source `this.CACHE_EXPIRY = 1000 * 60 * 10` (ten minutes). -/
def CACHE_EXPIRY : Nat := 1000 * 60 * 10

/-- Observable outcome of one `loadOutdated(clearCache, callback)` call:
whether `runCommand` was invoked, the cache slot afterwards, the package
names for which an `update-available` event was emitted (one entry per
emission, in order), and the `(error?, value)` the callback received. -/
structure LoadOutdatedCall where
  invoked : Bool
  cacheAfter : CacheSlot
  events : List String
  result : Except String (List String)

/-- Source `loadOutdated(clearCache, callback)`.

* `cache` is the slot at entry and `now` is `Date.now()`.
* `pinned` mirrors `getVersionPinnedPackages()`.
* `outcome` is the subprocess completion, and `parsed` the result of
  `JSON.parse(stdout) || []` on the exit-0 path (`none` when the parse
  throws), given as the list of package names in the parsed array.

When `clearCache` is passed the slot is cleared first; otherwise a truthy
cached value whose expiry lies in the future is returned to the callback
without invoking `runCommand`.  A fresh successful load filters out pinned
packages, stores the survivors with a ten-minute expiry, and emits one
`update-available` event per survivor. -/
def loadOutdated (clearCache : Bool) (cache : CacheSlot) (now : Nat)
    (pinned : List String) (outcome : Outcome) (parsed : Option (List String)) :
    LoadOutdatedCall :=
  if !clearCache && cache.value.isSome && decide (cache.expiry > now) then
    { invoked := false, cacheAfter := cache, events := [],
      result := Except.ok (cache.value.getD []) }
  else
    let cache0 := if clearCache then clearOutdatedCache else cache
    match outcome with
    | Outcome.exited code _ _ =>
      if code = 0 then
        match parsed with
        | none =>
          { invoked := true, cacheAfter := cache0, events := [],
            result := Except.error "json-parse-error" }
        | some packages =>
          let updatablePackages := packages.filter (fun p => !pinned.contains p)
          { invoked := true,
            cacheAfter := setLoadOutdated (some updatablePackages) (now + CACHE_EXPIRY),
            events := updatablePackages,
            result := Except.ok updatablePackages }
      else
        { invoked := true, cacheAfter := cache0, events := [],
          result := Except.error "Fetching outdated packages and themes failed." }
    | Outcome.spawnFailure _ =>
      { invoked := true, cacheAfter := cache0, events := [],
        result := Except.error "Fetching outdated packages and themes failed." }

/-- The `PackageManager` state that `getPackage` touches: the
`packagePromises` memo map from package name to the identity of the stored
promise, a counter allocating fresh promise identities, and the names for
which a `loadPackage` subprocess has been issued, in order of issue. -/
structure PMState where
  packagePromises : List (String × Nat)
  nextPromise : Nat
  spawned : List String
  deriving DecidableEq

/-- The `PackageManager` constructor leaves `packagePromises` empty. -/
def PMState.init : PMState := { packagePromises := [], nextPromise := 0, spawned := [] }

/-- Source `getPackage(packageName)`: return the memoized promise when the
map holds one for this name, otherwise create a new promise (whose executor
issues the `loadPackage` subprocess), store it under the name, and return
it. -/
def getPackage (s : PMState) (packageName : String) : Nat × PMState :=
  match s.packagePromises.lookup packageName with
  | some p => (p, s)
  | none =>
    (s.nextPromise,
      { packagePromises := (packageName, s.nextPromise) :: s.packagePromises,
        nextPromise := s.nextPromise + 1,
        spawned := s.spawned ++ [packageName] })

/-- A sequence of `getPackage` calls, threaded through the state. -/
def runGetPackages (s : PMState) : List String → PMState
  | [] => s
  | n :: rest => runGetPackages (getPackage s n).2 rest

/-- One sub-operation of `installAlternative` (the `uninstall` of the
original pack or the `install` of the alternative), abstracted to the time
its wrapping promise settles and whether it fulfills (`ok`) or rejects. -/
structure SubOp where
  time : Nat
  ok : Bool
  deriving DecidableEq

/-- Semantics of `Promise.all([uninstallPromise, installPromise])` as used by
`installAlternative`: the combined promise fulfills once both promises have
fulfilled, and rejects as soon as the first rejection happens, without
waiting for the other promise. -/
def promiseAll2 (a b : SubOp) : SubOp :=
  if a.ok && b.ok then { time := max a.time b.time, ok := true }
  else if a.ok then { time := b.time, ok := false }
  else if b.ok then { time := a.time, ok := false }
  else { time := min a.time b.time, ok := false }

/-- Source `installAlternative(pack, alternativePackageName, callback)`: the
composite terminal event it emits (after `package-installing-alternative`
has been emitted at entry), paired with the time the `Promise.all` handler
fires it. -/
def installAlternativeTerminal (uninstallOp installOp : SubOp) : String × Nat :=
  let settled := promiseAll2 uninstallOp installOp
  (if settled.ok then "package-installed-alternative"
   else "package-install-alternative-failed",
   settled.time)

/-- A localStorage cache record `\x7bdata, createdOn\x7d` as written by
`request` / `getFeatured` in `atom-io-client.js`. -/
structure CacheEntry (α : Type) where
  data : α
  createdOn : Int
  deriving DecidableEq

/-- Source `this.expiry = 1000 * 60 * 60 * 12` (twelve hours) in the
`AtomIoClient` constructor. -/
def clientExpiry : Int := 1000 * 60 * 60 * 12

/-- The `data` argument `fetchFromCache` hands its callback: the cached
payload, the empty object `handed back so callers don't crash`, or `null`
meaning `try to hit the network`. -/
inductive FetchData (α : Type) where
  | payload (d : α)
  | emptyObject
  | nullData
  deriving DecidableEq

/-- Source `fetchFromCache(packagePath, options, callback)`: returns the
`(err, data)` pair passed to the callback.

* `online` mirrors `this.online()` (`navigator.onLine`), `forceOption` the
  caller's `options.force`, `cached` the parsed localStorage entry for the
  path, `now` `Date.now()`.
* The source first sets `options.force = !this.online()` when the caller did
  not pass `force`; then one if-chain: a non-null entry is served when
  offline, forced, or within expiry; a null entry returns `\x7b\x7d` when
  offline; otherwise `null` is returned.  (The inner
  `if (cached == null) cached = \x7bdata: \x7b\x7d\x7d` of the source is dead:
  that branch is guarded by `cached != null`.)  The error slot of the
  callback is always `null`. -/
def fetchFromCache {α : Type} (online forceOption : Bool)
    (cached : Option (CacheEntry α)) (now : Int) : Option String × FetchData α :=
  let force := forceOption || !online
  match cached with
  | some c =>
    if !online || force || decide (now - c.createdOn < clientExpiry) then
      (none, FetchData.payload c.data)
    else (none, FetchData.nullData)
  | none =>
    if !online then (none, FetchData.emptyObject) else (none, FetchData.nullData)

/-- The behavior of `fetchFromCache` as the claim's sentence describes it,
written from the spec's words for the refinement comparison: the cached
payload when an entry exists and (offline, or the caller passed force, or the
entry's age is below the twelve-hour TTL); `null` when online and the entry
is absent, or online with an expired entry and no force; the empty object
when offline with nothing cached; never an error. -/
def fetchFromCacheSpec {α : Type} (online forceOption : Bool)
    (cached : Option (CacheEntry α)) (now : Int) : Option String × FetchData α :=
  match cached with
  | some c =>
    if !online || forceOption || decide (now - c.createdOn < clientExpiry) then
      (none, FetchData.payload c.data)
    else (none, FetchData.nullData)
  | none =>
    if online then (none, FetchData.nullData) else (none, FetchData.emptyObject)

/-- Lexicographic comparison of character lists by code point, the order
JavaScript's default `Array.prototype.sort` and string `<` use (identical to
UTF-16 order on the code points appearing here). -/
def jsLtChars : List Char → List Char → Bool
  | [], [] => false
  | [], _ :: _ => true
  | _ :: _, [] => false
  | a :: as, b :: bs => if a = b then jsLtChars as bs else decide (a < b)

/-- JavaScript string `<` via the underlying character data. -/
def jsStringLt (a b : String) : Bool := jsLtChars a.data b.data

/-- Character-level split used to model `String.prototype.split('-')`. -/
def splitCharList (sep : Char) : List Char → List (List Char)
  | [] => [[]]
  | c :: rest =>
    let groups := splitCharList sep rest
    if c = sep then [] :: groups
    else
      match groups with
      | [] => [[c]]
      | g :: gs => (c :: g) :: gs

/-- JavaScript `s.split('-')` (no limit, single-character separator). -/
def jsSplit (sep : Char) (s : String) : List String :=
  (splitCharList sep s.data).map List.asString

/-- JavaScript `parts.join('-')`. -/
def joinDash : List String → String
  | [] => ""
  | [part] => part
  | part :: rest => part ++ "-" ++ joinDash rest

/-- JavaScript `parseInt` on the strings appearing here: the maximal leading
run of decimal digits, `none` when there is none (`NaN`). -/
def parseIntList (acc : Option Nat) : List Char → Option Nat
  | [] => acc
  | c :: rest =>
    if '0' ≤ c ∧ c ≤ '9' then
      parseIntList (some ((acc.getD 0) * 10 + (c.toNat - '0'.toNat))) rest
    else acc

/-- JavaScript `parseInt(s)` (base 10, no sign, as used on timestamps). -/
def parseIntJs (s : String) : Option Nat := parseIntList none s.data

/-- Stable insertion of a string into an ascending `sort()`ed list. -/
def insertSortedString (x : String) : List String → List String
  | [] => [x]
  | y :: ys => if jsStringLt x y then x :: y :: ys else y :: insertSortedString x ys

/-- JavaScript `files.sort()`: ascending lexicographic sort. -/
def jsSort : List String → List String
  | [] => []
  | x :: xs => insertSortedString x (jsSort xs)

/-- The trailing timestamp of a cached avatar file name, as both `avatar` and
`cachedAvatar` read it: `parseInt` of the last `-`-separated part
(`split('-').pop()`). -/
def avatarStampOf (filename : String) : Option Nat :=
  ((jsSplit '-' filename).getLast?.getD "") |> parseIntJs

/-- Source `cachedAvatar(login, callback)`: glob the cache directory for
files matching the login, `sort().reverse()` them (newest first), and return
the first file whose trailing timestamp is within the expiry; `null` when no
cached file is fresh.  `files` is the glob result and `now` is `Date.now()`. -/
def cachedAvatar (files : List String) (now : Int) : Option String :=
  ((jsSort files).reverse).find? fun imagePath =>
    match avatarStampOf imagePath with
    | some createdOn => decide (now - (createdOn : Int) < clientExpiry)
    | none => false

/-- What an `avatar(login, callback)` call delivers. -/
inductive AvatarOutcome where
  | served (path : String)
  | fetchedFromNetwork
  | noAvatar
  deriving DecidableEq

/-- Source `fetchAndCacheAvatar(login, callback)`: when offline the callback
immediately receives `(null, null)`; when online a network fetch is issued
(whose own success or failure is outside these claims). -/
def fetchAndCacheAvatar (online : Bool) : AvatarOutcome :=
  if !online then AvatarOutcome.noAvatar else AvatarOutcome.fetchedFromNetwork

/-- Source `avatar(login, callback)`: consult `cachedAvatar`; when it yields
a file, recompute staleness from the trailing timestamp and serve the file
if it is not stale or the system is offline; otherwise (no file, or a stale
file while online) fall through to `fetchAndCacheAvatar`. -/
def avatar (online : Bool) (files : List String) (now : Int) : AvatarOutcome :=
  match cachedAvatar files now with
  | some cached =>
    let stale :=
      match avatarStampOf cached with
      | some createdOn => decide (now - (createdOn : Int) > clientExpiry)
      | none => false
    if !stale || !online then AvatarOutcome.served cached
    else fetchAndCacheAvatar online
  | none => fetchAndCacheAvatar online

/-- The grouping key `expireAvatarCache` computes for a file name: all
`-`-separated parts but the last, rejoined (`parts.pop(); parts.join('-')`). -/
def avatarKeyOf (filename : String) : String :=
  joinDash (jsSplit '-' filename).dropLast

/-- The popped timestamp part of a file name (`parts.pop()`). -/
def avatarStampPart (filename : String) : String :=
  (jsSplit '-' filename).getLast?.getD ""

/-- The keys of the `files` grouping object, in insertion order (the order
JavaScript `for (key in files)` visits the non-index string keys here). -/
def avatarKeysInOrder (files : List String) : List String :=
  (files.map avatarKeyOf).foldl
    (fun acc key => if acc.contains key then acc else acc ++ [key]) []

/-- The reconstructed children pushed for one key: each matching file name is
rebuilt as `key ++ "-" ++ stamp`. -/
def avatarChildren (files : List String) (key : String) : List String :=
  (files.filter (fun f => avatarKeyOf f == key)).map
    (fun f => avatarKeyOf f ++ "-" ++ avatarStampPart f)

/-- Source `expireAvatarCache()`: group the cache directory's file names by
login key, and per key `sort()` the children and `pop()` the last one (the
kept file), deleting the rest (`ENOENT` errors of the deletions are
ignored).  Returns `(survivors, deleted)`: per key in insertion order the
kept file, and the concatenated deleted files. -/
def expireAvatarCache (files : List String) : List String × List String :=
  let keys := avatarKeysInOrder files
  (keys.filterMap (fun key => (jsSort (avatarChildren files key)).getLast?),
   (keys.map (fun key => (jsSort (avatarChildren files key)).dropLast)).flatten)

/-- One element of a registry search response body.  `releasesTruthy` is the
truthiness of `pkg.releases`; the remaining fields feed the summary record
built by the `map` step. -/
structure SearchEntry where
  releasesTruthy : Bool
  readme : String
  metadataName : String
  downloads : Int
  stargazersCount : Int
  deriving DecidableEq

/-- The flattened summary record `Object.assign(metadata, \x7breadme,
downloads, stargazers_count\x7d)`. -/
structure PackageSummary where
  metadataName : String
  readme : String
  downloads : Int
  stargazersCount : Int
  deriving DecidableEq

/-- The filter callback `pkg => pkg.releases && releases.latest` of `search`:
when `pkg.releases` is falsy the conjunction short-circuits to that falsy
value and the entry is dropped; when it is truthy, evaluation reads the free
identifier `releases`, which is bound nowhere in scope, so a `ReferenceError`
is thrown out of `Array.prototype.filter`. -/
def searchFilterStep : List SearchEntry → Except String (List SearchEntry)
  | [] => Except.ok []
  | e :: rest =>
    if e.releasesTruthy then Except.error "ReferenceError: releases is not defined"
    else searchFilterStep rest

/-- The `map` step of `search`. -/
def mkSummary (e : SearchEntry) : PackageSummary :=
  { metadataName := e.metadataName, readme := e.readme,
    downloads := e.downloads, stargazersCount := e.stargazersCount }

/-- Insertion for the `sort((a, b) => b.downloads - a.downloads)` step. -/
def insertByDownloads (x : PackageSummary) : List PackageSummary → List PackageSummary
  | [] => [x]
  | y :: ys =>
    if decide (y.downloads < x.downloads) then x :: y :: ys
    else y :: insertByDownloads x ys

/-- The descending-downloads sort of `search`. -/
def sortByDownloads : List PackageSummary → List PackageSummary
  | [] => []
  | x :: xs => insertByDownloads x (sortByDownloads xs)

/-- Source `search(query, options)`, applied to a successful response `body`:
filter with the (defective) release predicate, flatten each survivor into a
summary, and sort by descending download count.  An exception thrown by the
filter callback propagates out of the `request` completion callback, so
`resolve` is never reached and the returned promise never settles — modelled
as `Except.error` carrying the `ReferenceError` message. -/
def search (body : List SearchEntry) : Except String (List PackageSummary) :=
  match searchFilterStep body with
  | Except.error e => Except.error e
  | Except.ok kept => Except.ok (sortByDownloads (kept.map mkSummary))

/-! Helper lemmas about event traces. -/

theorem eventActions_append (l1 l2 : List Step) :
    eventActions (l1 ++ l2) = eventActions l1 ++ eventActions l2 := by
  induction l1 with
  | nil => rfl
  | cons s rest ih => cases s <;> simp [eventActions, ih]

theorem eventActions_unload (loaded active : Bool) (name : String) :
    eventActions (unload loaded active name) = [] := by
  cases loaded <;> cases active <;> rfl

theorem eventActions_hostIte (b : Bool) (x y : String) :
    eventActions (if b then [Step.hostCall x y] else []) = [] := by
  cases b <;> rfl

theorem eventActions_hostIte2 (b : Bool) (x y u v : String) :
    eventActions (if b then [Step.hostCall x y] else [Step.hostCall u v]) = [] := by
  cases b <;> rfl

theorem eventActions_ite_prop2 {p : Prop} [Decidable p] (x y u v : String) :
    eventActions (if p then [Step.hostCall x y] else [Step.hostCall u v]) = [] := by
  split <;> rfl

theorem clearedAux_unload (seen loaded active : Bool) (name : String) (rest : List Step) :
    clearedBeforeTerminalAux seen (unload loaded active name ++ rest) =
      clearedBeforeTerminalAux seen rest := by
  cases loaded <;> cases active <;> simp [unload, clearedBeforeTerminalAux]

theorem clearedAux_hostIte (seen b : Bool) (x y : String) (rest : List Step) :
    clearedBeforeTerminalAux seen ((if b then [Step.hostCall x y] else []) ++ rest) =
      clearedBeforeTerminalAux seen rest := by
  cases b <;> simp [clearedBeforeTerminalAux]

theorem clearedAux_hostIte2 (seen b : Bool) (x y u v : String) (rest : List Step) :
    clearedBeforeTerminalAux seen
        ((if b then [Step.hostCall x y] else [Step.hostCall u v]) ++ rest) =
      clearedBeforeTerminalAux seen rest := by
  cases b <;> simp [clearedBeforeTerminalAux]

theorem clearedAux_ite_prop2 (seen : Bool) {p : Prop} [Decidable p] (x y u v : String)
    (rest : List Step) :
    clearedBeforeTerminalAux seen
        ((if p then [Step.hostCall x y] else [Step.hostCall u v]) ++ rest) =
      clearedBeforeTerminalAux seen rest := by
  split <;> simp [clearedBeforeTerminalAux]

/-- C1: for every single lifecycle operation (install, uninstall, update) on a
package descriptor, the emitted event sequence is exactly the `<action>ing`
event followed by exactly one terminal event — either `<action>ed` or
`<action>-failed` — never both, never zero, and no terminal event is emitted
without a preceding `<action>ing` event; this holds for every exit code and
also for spawn failures. -/
theorem lifecycle_event_order (pack : Pack)
    (loadedBefore activeBefore disabled : Bool) (parsed : Option Pack)
    (activeB loadedA activeA : Bool) (outcome : Outcome) :
    (eventActions (install pack loadedBefore activeBefore disabled parsed outcome) =
        ["installing", "installed"] ∨
      eventActions (install pack loadedBefore activeBefore disabled parsed outcome) =
        ["installing", "install-failed"]) ∧
    (eventActions (uninstall pack activeB loadedA activeA outcome) =
        ["uninstalling", "uninstalled"] ∨
      eventActions (uninstall pack activeB loadedA activeA outcome) =
        ["uninstalling", "uninstall-failed"]) ∧
    (eventActions (update pack outcome) = ["updating", "updated"] ∨
      eventActions (update pack outcome) = ["updating", "update-failed"]) := by
  refine ⟨?_, ?_, ?_⟩
  · rcases outcome with ⟨code, so, se⟩ | m
    · by_cases h : code = 0
      · exact Or.inl (by
          simp [install, h, eventActions_append, eventActions_unload,
            eventActions_hostIte, eventActions_hostIte2, eventActions_ite_prop2,
            eventActions])
      · exact Or.inr (by
          simp [install, h, eventActions_append, eventActions_unload,
            eventActions_hostIte, eventActions_hostIte2, eventActions_ite_prop2,
            eventActions])
    · exact Or.inr (by
        simp [install, eventActions_append, eventActions_unload,
          eventActions_hostIte, eventActions])
  · rcases outcome with ⟨code, so, se⟩ | m
    · by_cases h : code = 0
      · exact Or.inl (by
          simp [uninstall, h, eventActions_append, eventActions_unload,
            eventActions_hostIte, eventActions])
      · exact Or.inr (by
          simp [uninstall, h, eventActions_append, eventActions_hostIte, eventActions])
    · exact Or.inr (by
        simp [uninstall, eventActions_append, eventActions_hostIte, eventActions])
  · rcases outcome with ⟨code, so, se⟩ | m
    · by_cases h : code = 0
      · exact Or.inl (by simp [update, h, eventActions_append, eventActions])
      · exact Or.inr (by simp [update, h, eventActions_append, eventActions])
    · exact Or.inr (by simp [update, eventActions_append, eventActions])

/-- C4 counterexample: an `update` whose subprocess exits with code 1 emits
its terminal `update-failed` event with no preceding cache invalidation — in
fact the whole step trace contains no `clearOutdatedCache` call at all, so
the claim's `for every outcome` quantification fails at this input. -/
theorem cache_invalidation_cex :
    clearedBeforeTerminal
        (update (Pack.mk "x" none false false) (Outcome.exited 1 "" "")) = false ∧
      eventActions (update (Pack.mk "x" none false false) (Outcome.exited 1 "" "")) =
        ["updating", "update-failed"] ∧
      Step.clearCacheStep ∉ update (Pack.mk "x" none false false) (Outcome.exited 1 "" "") := by
  decide

/-- C4 (amended): for every mutating operation (install, uninstall, update),
the outdated-package cache is invalidated before the terminal event on every
successful outcome (exit code 0); on failure outcomes (non-zero exit code or
spawn failure) the operation does not invalidate the cache at all. -/
theorem cache_invalidation_before_terminal (pack : Pack)
    (loadedBefore activeBefore disabled : Bool) (parsed : Option Pack)
    (activeB loadedA activeA : Bool) (stdout stderr : String) :
    (clearedBeforeTerminal (install pack loadedBefore activeBefore disabled parsed
        (Outcome.exited 0 stdout stderr)) = true ∧
      clearedBeforeTerminal (uninstall pack activeB loadedA activeA
        (Outcome.exited 0 stdout stderr)) = true ∧
      clearedBeforeTerminal (update pack (Outcome.exited 0 stdout stderr)) = true) ∧
    (∀ code : Int, code ≠ 0 →
      Step.clearCacheStep ∉
          install pack loadedBefore activeBefore disabled parsed
            (Outcome.exited code stdout stderr) ∧
        Step.clearCacheStep ∉
          uninstall pack activeB loadedA activeA (Outcome.exited code stdout stderr) ∧
        Step.clearCacheStep ∉ update pack (Outcome.exited code stdout stderr)) ∧
    (∀ msg : String,
      Step.clearCacheStep ∉
          install pack loadedBefore activeBefore disabled parsed (Outcome.spawnFailure msg) ∧
        Step.clearCacheStep ∉
          uninstall pack activeB loadedA activeA (Outcome.spawnFailure msg) ∧
        Step.clearCacheStep ∉ update pack (Outcome.spawnFailure msg)) := by
  refine ⟨⟨?_, ?_, ?_⟩, fun code hc => ⟨?_, ?_, ?_⟩, fun msg => ⟨?_, ?_, ?_⟩⟩
  · simp [install, clearedBeforeTerminal, clearedAux_unload, clearedAux_hostIte2,
      clearedAux_ite_prop2, clearedBeforeTerminalAux, isTerminalAction]
  · simp [uninstall, clearedBeforeTerminal, clearedAux_unload, clearedAux_hostIte,
      clearedBeforeTerminalAux, isTerminalAction]
  · simp [update, clearedBeforeTerminal, clearedBeforeTerminalAux, isTerminalAction]
  · cases loadedBefore <;> cases activeBefore <;>
      simp [install, unload, hc]
  · cases activeB <;> simp [uninstall, hc]
  · simp [update, hc]
  · cases loadedBefore <;> cases activeBefore <;> simp [install, unload]
  · cases activeB <;> simp [uninstall]
  · simp [update]

/-- C4 witness: the amended statement applied at a concrete package,
discharging the non-zero-exit hypothesis at exit code 1. -/
theorem cache_invalidation_before_terminal_witness :
    Step.clearCacheStep ∉
        install (Pack.mk "x" none false false) false false false none
          (Outcome.exited 1 "" "") ∧
      clearedBeforeTerminal (update (Pack.mk "x" none false false)
        (Outcome.exited 0 "" "")) = true :=
  ⟨((cache_invalidation_before_terminal (Pack.mk "x" none false false) false false false
      none false false false "" "").2.1 1 (by decide)).1,
    (cache_invalidation_before_terminal (Pack.mk "x" none false false) false false false
      none false false false "" "").1.2.2⟩

/-- C3: a `loadOutdated(clearCache := false)` call made while the single-slot
cache holds a non-null value written less than ten minutes earlier hands the
callback that previous value without invoking the Command Runner and leaves
the slot unchanged; a call with `clearCache := true` bypasses the cache —
the Command Runner is invoked regardless of freshness and the call behaves
exactly as if the slot had just been cleared. -/
theorem loadOutdated_cache_contract (v : List String) (writeTime now : Nat)
    (pinned : List String) (outcome : Outcome) (parsed : Option (List String)) :
    (now < writeTime + CACHE_EXPIRY →
      loadOutdated false (setLoadOutdated (some v) (writeTime + CACHE_EXPIRY))
          now pinned outcome parsed =
        { invoked := false,
          cacheAfter := setLoadOutdated (some v) (writeTime + CACHE_EXPIRY),
          events := [], result := Except.ok v }) ∧
    ∀ cache : CacheSlot,
      (loadOutdated true cache now pinned outcome parsed).invoked = true ∧
        loadOutdated true cache now pinned outcome parsed =
          loadOutdated true clearOutdatedCache now pinned outcome parsed := by
  constructor
  · intro h
    simp [loadOutdated, setLoadOutdated, h]
  · intro cache
    constructor
    · rcases outcome with ⟨code, so, se⟩ | m
      · by_cases h : code = 0
        · cases parsed <;> simp [loadOutdated, h]
        · simp [loadOutdated, h]
      · simp [loadOutdated]
    · simp [loadOutdated]

/-- C3 witness: the contract applied at a value cached at time 0 and read at
time 1, and at a `clearCache := true` call over a still-fresh slot. -/
theorem loadOutdated_cache_contract_witness :
    loadOutdated false (setLoadOutdated (some ["p"]) (0 + CACHE_EXPIRY)) 1 []
        (Outcome.exited 0 "" "") (some []) =
      { invoked := false, cacheAfter := setLoadOutdated (some ["p"]) (0 + CACHE_EXPIRY),
        events := [], result := Except.ok ["p"] } ∧
      (loadOutdated true (setLoadOutdated (some ["p"]) (0 + CACHE_EXPIRY)) 1 []
        (Outcome.exited 0 "" "") (some [])).invoked = true :=
  ⟨(loadOutdated_cache_contract ["p"] 0 1 [] (Outcome.exited 0 "" "") (some [])).1
      (by decide),
    ((loadOutdated_cache_contract ["p"] 0 1 [] (Outcome.exited 0 "" "") (some [])).2
      (setLoadOutdated (some ["p"]) (0 + CACHE_EXPIRY))).1⟩

/-- C10: a `loadOutdated` call served from the cache (clearCache false, a
truthy cached value, an unexpired slot) emits no `update-available` event,
does not invoke the Command Runner and leaves the slot unchanged;
`update-available` events arise only from an invoked, exit-0, parseable
load, and a fresh successful load emits exactly one event per package that
survives the pinned-version filter. -/
theorem update_available_frame (cache : CacheSlot) (now : Nat)
    (pinned packages : List String) (outcome : Outcome) (parsed : Option (List String))
    (clearCache : Bool) (stdout stderr : String) :
    (cache.value.isSome → now < cache.expiry →
      (loadOutdated false cache now pinned outcome parsed).events = [] ∧
        (loadOutdated false cache now pinned outcome parsed).cacheAfter = cache ∧
        (loadOutdated false cache now pinned outcome parsed).invoked = false) ∧
    ((loadOutdated clearCache cache now pinned outcome parsed).events ≠ [] →
      (loadOutdated clearCache cache now pinned outcome parsed).invoked = true ∧
        (∃ so se, outcome = Outcome.exited 0 so se) ∧ parsed.isSome) ∧
    ((loadOutdated clearCache cache now pinned (Outcome.exited 0 stdout stderr)
        (some packages)).invoked = true →
      (loadOutdated clearCache cache now pinned (Outcome.exited 0 stdout stderr)
          (some packages)).events =
        packages.filter (fun p => !pinned.contains p)) := by
  refine ⟨?_, ?_, ?_⟩
  · intro hv hexp
    simp [loadOutdated, hv, hexp]
  · intro hne
    by_cases hcached :
        (!clearCache && cache.value.isSome && decide (cache.expiry > now)) = true
    · exact absurd (by simp [loadOutdated, hcached]) hne
    · rcases outcome with ⟨code, so, se⟩ | m
      · by_cases h : code = 0
        · cases parsed with
          | none => exact absurd (by simp [loadOutdated, hcached, h]) hne
          | some packages2 =>
            exact ⟨by simp [loadOutdated, hcached, h], ⟨so, se, by rw [h]⟩, by simp⟩
        · exact absurd (by simp [loadOutdated, hcached, h]) hne
      · exact absurd (by simp [loadOutdated, hcached]) hne
  · intro hinv
    by_cases hcached :
        (!clearCache && cache.value.isSome && decide (cache.expiry > now)) = true
    · simp [loadOutdated, hcached] at hinv
    · simp [loadOutdated, hcached]

/-- C10 witness: a cached-slot call emitting nothing, a fresh load over two
packages with one pinned, emitting exactly the surviving package. -/
theorem update_available_frame_witness :
    (loadOutdated false (setLoadOutdated (some ["p"]) 50) 10 [] (Outcome.exited 0 "" "")
        (some ["q"])).events = [] ∧
      (loadOutdated true (setLoadOutdated none 0) 10 ["pinned"]
          (Outcome.exited 0 "" "") (some ["pinned", "q"])).events = ["q"] := by
  constructor
  · exact ((update_available_frame (setLoadOutdated (some ["p"]) 50) 10 [] []
      (Outcome.exited 0 "" "") (some ["q"]) false "" "").1 (by decide) (by decide)).1
  · have h := (update_available_frame (setLoadOutdated none 0) 10 ["pinned"]
      ["pinned", "q"] (Outcome.exited 0 "" "") (some ["pinned", "q"]) true "" "").2.2
      (by decide)
    rw [h]
    decide

/-! Helper lemmas about `getPackage` memoization. -/

theorem lookup_after_getPackage (s : PMState) (x : String) :
    ((getPackage s x).2).packagePromises.lookup x = some (getPackage s x).1 := by
  unfold getPackage
  cases h : s.packagePromises.lookup x with
  | some p => simp [h]
  | none => simp [h, List.lookup]

theorem lookup_mono_getPackage (s : PMState) (y x : String) (p : Nat)
    (h : s.packagePromises.lookup x = some p) :
    ((getPackage s y).2).packagePromises.lookup x = some p := by
  unfold getPackage
  cases hy : s.packagePromises.lookup y with
  | some q => simp [hy, h]
  | none =>
    by_cases hxy : x = y
    · rw [hxy] at h
      rw [h] at hy
      exact absurd hy (by simp)
    · have hbe : (x == y) = false := by simp [hxy]
      simp [hy, List.lookup, hbe, h]

theorem lookup_mono_run (calls : List String) :
    ∀ (s : PMState) (x : String) (p : Nat),
      s.packagePromises.lookup x = some p →
      (runGetPackages s calls).packagePromises.lookup x = some p := by
  induction calls with
  | nil => intro s x p h; exact h
  | cons n rest ih =>
    intro s x p h
    exact ih (getPackage s n).2 x p (lookup_mono_getPackage s n x p h)

theorem getPackage_of_lookup (s : PMState) (x : String) (p : Nat)
    (h : s.packagePromises.lookup x = some p) : getPackage s x = (p, s) := by
  unfold getPackage
  simp [h]

theorem spawned_invariant (calls : List String) :
    ∀ s : PMState,
      (∀ x, s.spawned.count x ≤ 1 ∧
        (x ∈ s.spawned → (s.packagePromises.lookup x).isSome)) →
      ∀ x, (runGetPackages s calls).spawned.count x ≤ 1 ∧
        (x ∈ (runGetPackages s calls).spawned →
          ((runGetPackages s calls).packagePromises.lookup x).isSome) := by
  induction calls with
  | nil => intro s h; exact h
  | cons n rest ih =>
    intro s h
    apply ih
    intro x
    unfold getPackage
    cases hn : s.packagePromises.lookup n with
    | some p => simpa using h x
    | none =>
      have hnotmem : n ∉ s.spawned := by
        intro hmem
        have := (h n).2 hmem
        rw [hn] at this
        simp at this
      constructor
      · by_cases hxy : x = n
        · subst hxy
          have hz : s.spawned.count x = 0 := List.count_eq_zero.mpr hnotmem
          simp [List.count_append, hz]
        · have : List.count x [n] = 0 := by
            simp [List.count_eq_zero, hxy]
          simp only [List.count_append, this, Nat.add_zero]
          exact (h x).1
      · intro hmem
        simp only [List.mem_append, List.mem_singleton] at hmem
        by_cases hxy : x = n
        · simp [List.lookup, hxy]
        · rcases hmem with hmem | hmem
          · have hsome := (h x).2 hmem
            have hbe : (x == n) = false := by simp [hxy]
            simp only [List.lookup, hbe]
            exact hsome
          · exact absurd hmem hxy

/-- C5: the first `getPackage(x)` call stores its promise in the per-name
map, every later call with the same name — after arbitrarily many calls for
other names — returns that identical stored promise and leaves the state
untouched, and over any call sequence from the initial state at most one
`loadPackage` subprocess is ever issued for `x`. -/
theorem getPackage_memoized :
    (∀ (s : PMState) (x : String) (later : List String),
      getPackage (runGetPackages (getPackage s x).2 later) x =
        ((getPackage s x).1, runGetPackages (getPackage s x).2 later)) ∧
    ∀ (calls : List String) (x : String),
      (runGetPackages PMState.init calls).spawned.count x ≤ 1 := by
  constructor
  · intro s x later
    apply getPackage_of_lookup
    exact lookup_mono_run later (getPackage s x).2 x (getPackage s x).1
      (lookup_after_getPackage s x)
  · intro calls x
    refine (spawned_invariant calls PMState.init ?_ x).1
    intro y
    simp [PMState.init]

/-- C2 counterexample: with the uninstall sub-operation rejecting at time 1
while the install sub-operation is still pending until time 5, the composite
terminal event `package-install-alternative-failed` fires at time 1 — before
the install sub-operation has completed — refuting the claim that both
sub-operations complete before the composite terminal event. -/
theorem installAlternative_cex :
    installAlternativeTerminal (SubOp.mk 1 false) (SubOp.mk 5 true) =
        ("package-install-alternative-failed", 1) ∧
      ¬ max (SubOp.mk 1 false).time (SubOp.mk 5 true).time ≤
          (installAlternativeTerminal (SubOp.mk 1 false) (SubOp.mk 5 true)).2 := by
  decide

/-- C2 (amended): when both sub-operations of `installAlternative` fulfill,
the composite `package-installed-alternative` event fires only once both
have completed (at the later completion time); but `Promise.all`
short-circuits on rejection — when either sub-operation rejects, the
composite `package-install-alternative-failed` event fires no later than
that rejection, which can be while the other sub-operation is still
pending. -/
theorem installAlternative_terminal_timing (uninstallOp installOp : SubOp) :
    (uninstallOp.ok = true → installOp.ok = true →
      installAlternativeTerminal uninstallOp installOp =
        ("package-installed-alternative", max uninstallOp.time installOp.time)) ∧
    (uninstallOp.ok = false →
      (installAlternativeTerminal uninstallOp installOp).1 =
          "package-install-alternative-failed" ∧
        (installAlternativeTerminal uninstallOp installOp).2 ≤ uninstallOp.time) ∧
    (installOp.ok = false →
      (installAlternativeTerminal uninstallOp installOp).1 =
          "package-install-alternative-failed" ∧
        (installAlternativeTerminal uninstallOp installOp).2 ≤ installOp.time) := by
  refine ⟨fun hu hi => ?_, fun hu => ?_, fun hi => ?_⟩
  · simp [installAlternativeTerminal, promiseAll2, hu, hi]
  · cases hi : installOp.ok <;>
      simp [installAlternativeTerminal, promiseAll2, hu, hi, min_le_left]
  · cases hu : uninstallOp.ok <;>
      simp [installAlternativeTerminal, promiseAll2, hu, hi, min_le_right]

/-- C2 witness: the amended statement applied to a fulfilled pair and to the
counterexample's rejecting pair. -/
theorem installAlternative_terminal_timing_witness :
    installAlternativeTerminal (SubOp.mk 2 true) (SubOp.mk 7 true) =
        ("package-installed-alternative", max 2 7) ∧
      (installAlternativeTerminal (SubOp.mk 1 false) (SubOp.mk 5 true)).2 ≤ 1 :=
  ⟨(installAlternative_terminal_timing (SubOp.mk 2 true) (SubOp.mk 7 true)).1
      (by decide) (by decide),
    ((installAlternative_terminal_timing (SubOp.mk 1 false) (SubOp.mk 5 true)).2.1
      (by decide)).2⟩

/-- C6: `fetchFromCache` never delivers an error, and its result agrees with
the claim's three-case description (cached payload when an entry exists and
offline, forced, or within the twelve-hour TTL; `null` when online and the
entry is absent or stale-and-unforced; the empty object when offline with
nothing cached) at every input. -/
theorem fetchFromCache_matches_spec (α : Type) (online forceOption : Bool)
    (cached : Option (CacheEntry α)) (now : Int) :
    fetchFromCache online forceOption cached now =
        fetchFromCacheSpec online forceOption cached now ∧
      (fetchFromCache online forceOption cached now).1 = none := by
  cases cached <;> cases online <;> cases forceOption <;>
    simp [fetchFromCache, fetchFromCacheSpec]
  split <;> rfl

/-- C7: the code does not serve a stale cached avatar while offline.  With a
single cached file `u-100` and the clock past its twelve-hour expiry,
`cachedAvatar` filters the stale file out, `avatar` falls through to
`fetchAndCacheAvatar`, and — offline — the caller gets nothing instead of
the newest cached file the claim promises (the `!stale || !online` branch of
`avatar` that would tolerate stale data is unreachable, because
`cachedAvatar` only ever yields fresh files). -/
theorem avatar_offline_stale_divergence :
    avatar false ["u-100"] (100 + clientExpiry + 1) = AvatarOutcome.noAvatar ∧
      cachedAvatar ["u-100"] (100 + clientExpiry + 1) = none ∧
      avatar false ["u-100"] (100 + clientExpiry + 1) ≠ AvatarOutcome.served "u-100" := by
  decide

/-- C8: evaluating `expireAvatarCache` on the claim's concrete input.  The
per-login `children.sort(); children.pop()` keeps the lexicographically
greatest file name, which for login `a` is `a-50` (since the timestamp
widths differ, string order disagrees with numeric order), so the surviving
set is `a-50, b-10` and not the claimed `a-200, b-10`; `a-200`, the newest
file the code's own comment says must be kept, is deleted. -/
theorem expireAvatarCache_divergence :
    expireAvatarCache ["a-100", "a-200", "a-50", "b-10"] =
        (["a-50", "b-10"], ["a-100", "a-200"]) ∧
      (expireAvatarCache ["a-100", "a-200", "a-50", "b-10"]).1 ≠ ["a-200", "b-10"] ∧
      "a-200" ∈ (expireAvatarCache ["a-100", "a-200", "a-50", "b-10"]).2 := by
  decide

/-- C9: evaluating `search` on a successful response body holding one entry
with a truthy `releases` field: the filter callback dereferences the unbound
identifier `releases` and throws a `ReferenceError`, so `search` fails
instead of resolving with the released entry — and any entry without
releases is dropped, so a crash-free body can only ever produce the empty
result. -/
theorem search_releases_divergence :
    search [SearchEntry.mk true "readme" "foo" 5 1] =
        Except.error "ReferenceError: releases is not defined" ∧
      search [SearchEntry.mk false "readme" "bar" 3 1] = Except.ok [] := by
  constructor <;> rfl

end SettingsView
